import Mathlib

/-!
Verification of the focus-capture-and-paste-injection subsystem.

Shallow embedding of:
- `src-tauri/src/os/infrastructure/windows_focus.rs` (`WindowsFocusTracker`)
- `src-tauri/src/os/infrastructure/windows_input.rs` (`WindowsInputSimulator`)
- `src-tauri/src/os/application/use_cases/paste_prompt.rs` (`PastePromptUseCase`)

OS calls (`GetForegroundWindow`, `GetWindowThreadProcessId`, `IsWindow`,
`SetForegroundWindow`, thread sleeps) are modelled by explicit environments
supplying their results, and the OS interactions a function performs are
returned as an explicit call trace. Window handles (HWND) and process ids
are modelled as `Nat`; the absent/invalid HWND is `Option.none`.
-/

namespace Prompter

/-- The fixed per-process facts the focus tracker consults:
`owner h` is the process id returned by `GetWindowThreadProcessId` for
window `h`, and `ourPid` is `std::process::id()` of this application. -/
structure ProcWorld where
  owner : Nat → Nat
  ourPid : Nat

/-- Error taxonomy of `windows_focus.rs`; each constructor corresponds to one
`Err(...)` site (the Rust uses `String` messages):
- `noForegroundWindow` = "Could not get foreground window"
- `invalidWindowHandle h` = "Invalid window handle: 0x{h:X}"
- `setForegroundFailed c` = "SetForegroundWindow failed: {c}"
- `focusNotVerified` = "Focus verification failed - window didn't gain focus"
- `noSavedWindow` = "No previous window saved" -/
inductive FocusError where
  | noForegroundWindow
  | invalidWindowHandle (hwnd : Nat)
  | setForegroundFailed (code : Nat)
  | focusNotVerified
  | noSavedWindow
  deriving DecidableEq, Repr

/-- Embedding of `WindowsFocusTracker::get_window_process_id` (windows_focus.rs:31-37). -/
def get_window_process_id (w : ProcWorld) (hwnd : Nat) : Nat :=
  w.owner hwnd

/-- Embedding of `WindowsFocusTracker::is_same_process` (windows_focus.rs:41-45). -/
def is_same_process (w : ProcWorld) (hwnd : Nat) : Bool :=
  get_window_process_id w hwnd == w.ourPid

/-- Embedding of `WindowsFocusTracker::remember_if_external` (windows_focus.rs:55-83).
`fg` is what `GetForegroundWindow` returns at this call (`none` = invalid
handle); `st` is the current content of the `PREVIOUS_WINDOW` mutex.
Returns the Rust function's `Result<bool, _>` together with the new stored
state. -/
def remember_if_external (w : ProcWorld) (fg : Option Nat) (st : Option Nat) :
    Except FocusError (Bool × Option Nat) :=
  match fg with
  | none => Except.error FocusError.noForegroundWindow
  | some hwnd =>
    if is_same_process w hwnd then
      Except.ok (false, st)
    else
      Except.ok (true, some hwnd)

/-- Embedding of `WindowsFocusTracker::remember_current_window` (windows_focus.rs:94-107).
Stores the foreground window unconditionally (no same-process check).
Returns the new stored state. -/
def remember_current_window (fg : Option Nat) (_st : Option Nat) :
    Except FocusError (Option Nat) :=
  match fg with
  | some hwnd => Except.ok (some hwnd)
  | none => Except.error FocusError.noForegroundWindow

/-- Embedding of `WindowsFocusTracker::clear_saved_window` (windows_focus.rs:154-157). -/
def clear_saved_window (_st : Option Nat) : Option Nat :=
  none

/-- The three registry write operations, for reasoning about arbitrary
sequences of calls. -/
inductive RegOp where
  | rememberCurrent
  | rememberIfExternal
  | clear
  deriving DecidableEq, Repr

/-- Effect of one registry call on the stored state. `fg` is the foreground
window the OS reports at that call. A call that returns `Err` leaves the
stored state unchanged (the Rust only writes the mutex on the `Ok` paths). -/
def regStep (w : ProcWorld) (fg : Option Nat) (op : RegOp) (st : Option Nat) :
    Option Nat :=
  match op with
  | RegOp.rememberCurrent =>
    match remember_current_window fg st with
    | Except.ok st' => st'
    | Except.error _ => st
  | RegOp.rememberIfExternal =>
    match remember_if_external w fg st with
    | Except.ok (_, st') => st'
    | Except.error _ => st
  | RegOp.clear => clear_saved_window st

/-- Run a sequence of registry calls; each list element pairs the foreground
window the OS reports at that moment with the operation invoked. -/
def runRegOps (w : ProcWorld) : List (Option Nat × RegOp) → Option Nat → Option Nat
  | [], st => st
  | (fg, op) :: rest, st => runRegOps w rest (regStep w fg op st)

/-- The spec's §3 invariant: the stored handle, when present, is not owned by
the application's own process. -/
def externalOnly (w : ProcWorld) (st : Option Nat) : Prop :=
  ∀ h, st = some h → w.owner h ≠ w.ourPid

/-- OS interactions performed by `restore_previous_window`, recorded as a
trace: the `IsWindow` validation, the `SetForegroundWindow` request, the
`thread::sleep` delays and the `GetForegroundWindow` polls of the
verification loop. -/
inductive OsCall where
  | isWindowCheck (hwnd : Nat)
  | setForeground (hwnd : Nat)
  | sleepMs (ms : Nat)
  | getForeground
  deriving DecidableEq, Repr

/-- Environment supplying the OS results `restore_previous_window` observes:
`isWindow h` is what `IsWindow` reports for handle `h`, `setForegroundOk`
whether `SetForegroundWindow` returns success, `errorCode` the value
`GetLastError` would give, and `fgAt i` the foreground window
`GetForegroundWindow` reports at verification attempt `i` (`none` = invalid
handle, which never equals a saved handle). -/
structure RestoreEnv where
  isWindow : Nat → Bool
  setForegroundOk : Bool
  errorCode : Nat
  fgAt : Nat → Option Nat

/-- The verification loop of `restore_previous_window`
(windows_focus.rs:132-146): `for attempt in 0..3 { sleep(10ms); if
GetForegroundWindow() == hwnd { return Ok(()) } }`, then
`Err(FocusNotVerified)`. The list argument is the remaining attempt
indices; each iteration contributes its sleep and poll to the trace. -/
def verify_focus (fgAt : Nat → Option Nat) (hwnd : Nat) :
    List Nat → Except FocusError Unit × List OsCall
  | [] => (Except.error FocusError.focusNotVerified, [])
  | attempt :: rest =>
    if fgAt attempt = some hwnd then
      (Except.ok (), [OsCall.sleepMs 10, OsCall.getForeground])
    else
      let r := verify_focus fgAt hwnd rest
      (r.1, OsCall.sleepMs 10 :: OsCall.getForeground :: r.2)

/-- Embedding of `WindowsFocusTracker::restore_previous_window` (windows_focus.rs:109-152).
Reads the stored handle `st` (the function never writes it); returns the
Rust `Result` and the trace of OS calls performed. -/
def restore_previous_window (env : RestoreEnv) (st : Option Nat) :
    Except FocusError Unit × List OsCall :=
  match st with
  | none => (Except.error FocusError.noSavedWindow, [])
  | some hwnd =>
    if env.isWindow hwnd then
      if env.setForegroundOk then
        let v := verify_focus env.fgAt hwnd (List.range 3)
        (v.1, OsCall.isWindowCheck hwnd :: OsCall.setForeground hwnd :: v.2)
      else
        (Except.error (FocusError.setForegroundFailed env.errorCode),
         [OsCall.isWindowCheck hwnd, OsCall.setForeground hwnd])
    else
      (Except.error (FocusError.invalidWindowHandle hwnd),
       [OsCall.isWindowCheck hwnd])

/-- The three injection strategies of `simulate_paste`, in the order they are
attempted (windows_input.rs:274-313). -/
inductive PasteStrategy where
  | sendInputAttach
  | sendMessageKeys
  | wmPaste
  deriving DecidableEq, Repr

/-- Outcomes of the three strategy calls `simulate_paste` makes:
`attachResult` from `simulate_with_attachment`, `messageKeysResult` from
`try_send_message_keys`, `wmPasteResult` from `try_wm_paste` (each is
`Result<(), String>` in the Rust). -/
structure InjectEnv where
  attachResult : Except String Unit
  messageKeysResult : Except String Unit
  wmPasteResult : Except String Unit

/-- How `simulate_paste` converts a strategy's `Result` into its success
flag (the `match { Ok(()) => true, Err(e) => false }` arms at
windows_input.rs:277-313). -/
def strategyOk (r : Except String Unit) : Bool :=
  match r with
  | Except.ok _ => true
  | Except.error _ => false

/-- Embedding of `WindowsInputSimulator::simulate_paste` (windows_input.rs:267-326):
attempts all three strategies unconditionally, records their success flags,
and errors only when all three failed. Returns the Rust `Result` and the
list of strategies attempted, in order. -/
def simulate_paste (env : InjectEnv) : Except String Unit × List PasteStrategy :=
  let sendinput_success := strategyOk env.attachResult
  let sendmessage_success := strategyOk env.messageKeysResult
  let wm_paste_success := strategyOk env.wmPasteResult
  let attempted := [PasteStrategy.sendInputAttach, PasteStrategy.sendMessageKeys,
    PasteStrategy.wmPaste]
  if !sendinput_success && !sendmessage_success && !wm_paste_success then
    (Except.error ("Paste simulation failed: all strategies failed"), attempted)
  else
    (Except.ok (), attempted)

/-- Embedding of `CopyPasteResult` (os/domain/mod.rs:9-18). -/
structure CopyPasteResult where
  clipboard_success : Bool
  paste_attempted : Bool
  paste_likely_success : Bool
  message : String
  deriving DecidableEq, Repr

/-- Collaborator interactions `PastePromptUseCase::execute` performs, recorded
as a trace in program order: the clipboard write and read, the cooperative
sleeps, the `restore_previous_window` and `simulate_paste` dispatches, and
the `clear_saved_window` cleanup. -/
inductive OrchCall where
  | clipboardWrite
  | sleepMs (ms : Nat)
  | clipboardRead
  | restoreFocus
  | injectPaste
  | clearSavedWindow
  deriving DecidableEq, Repr

/-- Results the orchestrator's collaborators produce on one run:
`writeResult` from `clipboard.write_text`, `readResult` from
`clipboard.read_text`, `focusResult` and `pasteResult` from the
`spawn_blocking` dispatches (outer `error` = task join failure, inner value
= the collaborator's own `Result<(), String>`). -/
structure OrchEnv where
  writeResult : Except String Unit
  readResult : Except String String
  focusResult : Except String (Except String Unit)
  pasteResult : Except String (Except String Unit)

/-- The `focus_restored` flag (paste_prompt.rs:69-82): true exactly on
`Ok(Ok(()))`; an inner error or a task join error both yield false. -/
def focus_restored (env : OrchEnv) : Bool :=
  match env.focusResult with
  | Except.ok (Except.ok _) => true
  | Except.ok (Except.error _) => false
  | Except.error _ => false

/-- The `paste_result_ok` flag (paste_prompt.rs:86-115): stays false when
auto-paste is off; otherwise true exactly on `Ok(Ok(()))`. -/
def paste_result_ok (env : OrchEnv) (auto_paste : Bool) : Bool :=
  if auto_paste then
    match env.pasteResult with
    | Except.ok (Except.ok _) => true
    | Except.ok (Except.error _) => false
    | Except.error _ => false
  else false

/-- Embedding of `PastePromptUseCase::execute` (paste_prompt.rs:26-147). Returns the Rust
`Result<CopyPasteResult, String>` and the trace of collaborator calls.
A clipboard-write failure returns early after the write call; otherwise the
flow runs to completion: sleep 20ms, verify the clipboard read (a mismatch
or read failure only affects logging), restore focus, optionally sleep
100ms and inject the paste, clear the saved window, and build the result. -/
def execute (env : OrchEnv) (text : String) (auto_paste : Bool) :
    Except String CopyPasteResult × List OrchCall :=
  match env.writeResult with
  | Except.error e =>
    (Except.ok
      { clipboard_success := false
        paste_attempted := false
        paste_likely_success := false
        message := ("Failed to copy to clipboard: ") ++ e },
     [OrchCall.clipboardWrite])
  | Except.ok _ =>
    let verification :=
      match env.readResult with
      | Except.ok v => v
      | Except.error _ => text
    let _clipboard_verified := verification == text
    let paste_attempted := auto_paste
    let paste_likely_success :=
      paste_attempted && paste_result_ok env auto_paste && focus_restored env
    let message :=
      if !auto_paste then ("Copied to clipboard")
      else if paste_likely_success then ("Copied and pasted")
      else if paste_attempted && !focus_restored env then
        ("Copied to clipboard - press Ctrl+V to paste")
      else ("Copied to clipboard - press Ctrl+V if not pasted")
    (Except.ok
      { clipboard_success := true
        paste_attempted := paste_attempted
        paste_likely_success := paste_likely_success
        message := message },
     [OrchCall.clipboardWrite, OrchCall.sleepMs 20, OrchCall.clipboardRead,
       OrchCall.restoreFocus] ++
      (if auto_paste then [OrchCall.sleepMs 100, OrchCall.injectPaste] else []) ++
      [OrchCall.clearSavedWindow])

/-- Effect of the orchestrator's trace on the focus registry's stored handle:
`clear_saved_window` empties it; the clipboard calls, sleeps and the two
blocking dispatches do not write it (`restore_previous_window` only reads
the mutex, windows_focus.rs:110). -/
def applyRegistryCalls : List OrchCall → Option Nat → Option Nat
  | [], st => st
  | c :: rest, st =>
    match c with
    | OrchCall.clearSavedWindow => applyRegistryCalls rest (clear_saved_window st)
    | _ => applyRegistryCalls rest st

/-! Helper lemmas. -/

theorem regStep_preserves_externalOnly (w : ProcWorld) (fg : Option Nat) (op : RegOp)
    (st : Option Nat) (hop : op ≠ RegOp.rememberCurrent) (hst : externalOnly w st) :
    externalOnly w (regStep w fg op st) := by
  cases op with
  | rememberCurrent => exact absurd rfl hop
  | rememberIfExternal =>
    cases fg with
    | none => exact hst
    | some hwnd =>
      intro h hh
      by_cases hsame : is_same_process w hwnd = true
      · simp only [regStep, remember_if_external, hsame, if_true] at hh
        exact hst h hh
      · simp only [regStep, remember_if_external, hsame, if_false, Bool.false_eq_true] at hh
        rw [Option.some_inj] at hh
        subst hh
        simpa [is_same_process, get_window_process_id] using hsame
  | clear =>
    intro h hh
    simp [regStep, clear_saved_window] at hh

theorem runRegOps_preserves_externalOnly (w : ProcWorld)
    (ops : List (Option Nat × RegOp)) (st : Option Nat)
    (hops : ∀ p ∈ ops, p.2 ≠ RegOp.rememberCurrent) (hst : externalOnly w st) :
    externalOnly w (runRegOps w ops st) := by
  induction ops generalizing st with
  | nil => exact hst
  | cons p rest ih =>
    obtain ⟨fg, op⟩ := p
    exact ih (regStep w fg op st) (fun q hq => hops q (List.mem_cons_of_mem _ hq))
      (regStep_preserves_externalOnly w fg op st (hops _ (List.mem_cons_self _ _)) hst)

theorem regStep_no_foreground (w : ProcWorld) (op : RegOp) :
    regStep w none op none = none := by
  cases op <;> rfl

theorem runRegOps_all_none (w : ProcWorld) (ops : List (Option Nat × RegOp))
    (hops : ∀ p ∈ ops, p.1 = none) : runRegOps w ops none = none := by
  induction ops with
  | nil => rfl
  | cons p rest ih =>
    obtain ⟨fg, op⟩ := p
    have hfg : fg = none := hops _ (List.mem_cons_self _ _)
    subst hfg
    show runRegOps w rest (regStep w none op none) = none
    rw [regStep_no_foreground]
    exact ih (fun q hq => hops q (List.mem_cons_of_mem _ hq))

/-! Claim C1. -/

/-- World in which every window is owned by process 7, which is also the
application's own pid. -/
def w1 : ProcWorld := ⟨fun _ => 7, 7⟩

/-- C1, counterexample: `remember_current_window` writes the stored handle
without any same-process check, so a single `remember_current_foreground`
call made while one of the application's own windows is foreground leaves a
same-process window stored — the invariant is not enforced by every write
operation. -/
theorem C1_counterexample :
    ¬ externalOnly w1 (runRegOps w1 [(some 1, RegOp.rememberCurrent)] none) := by
  intro hinv
  exact hinv 1 rfl rfl

/-- C1, amended: over every sequence of registry operations that does not use
`remember_current_foreground` — that is, the writes are `remember_if_external`
and `clear` — the stored `last_external_window`, when present, never
identifies a window owned by the application's own process; enforced by those
write operations. (`remember_current_foreground` itself overwrites the
stored handle unconditionally and can store a same-process window.) -/
theorem C1_amended_invariant (w : ProcWorld) (ops : List (Option Nat × RegOp))
    (hops : ∀ p ∈ ops, p.2 ≠ RegOp.rememberCurrent) :
    externalOnly w (runRegOps w ops none) :=
  runRegOps_preserves_externalOnly w ops none hops
    (fun _ hh => Option.noConfusion hh)

/-- Concrete operation sequence avoiding `remember_current_foreground`. -/
def ops1 : List (Option Nat × RegOp) :=
  [(some 3, RegOp.rememberIfExternal), (none, RegOp.rememberIfExternal),
   (some 4, RegOp.rememberIfExternal), (none, RegOp.clear),
   (some 6, RegOp.rememberIfExternal)]

/-- World for the C1 witness: window h is owned by process h; our pid is 5. -/
def w1b : ProcWorld := ⟨fun h => h, 5⟩

/-- Witness for C1's amended theorem at a concrete world and sequence. -/
theorem C1_amended_invariant_witness :
    (∀ p ∈ ops1, p.2 ≠ RegOp.rememberCurrent) ∧
    externalOnly w1b (runRegOps w1b ops1 none) :=
  ⟨by decide, C1_amended_invariant w1b ops1 (by decide)⟩

/-! Claim C7. -/

/-- C7: `remember_if_external` called while the foreground window is owned by
the application's own process leaves stored state unchanged and returns
false; with a foreign-process foreground it stores that handle and returns
true; with no foreground window it fails with `NoForegroundWindow`. -/
theorem C7_remember_if_external (w : ProcWorld) (st : Option Nat) (hin hex : Nat)
    (hown : w.owner hin = w.ourPid) (hforeign : w.owner hex ≠ w.ourPid) :
    remember_if_external w none st = Except.error FocusError.noForegroundWindow ∧
    remember_if_external w (some hin) st = Except.ok (false, st) ∧
    remember_if_external w (some hex) st = Except.ok (true, some hex) := by
  refine ⟨rfl, ?_, ?_⟩
  · simp [remember_if_external, is_same_process, get_window_process_id, hown]
  · simp [remember_if_external, is_same_process, get_window_process_id, hforeign]

/-- World for the C7 witness: window h is owned by process h; our pid is 5. -/
def w7 : ProcWorld := ⟨fun h => h, 5⟩

/-- Witness for C7 at concrete windows 5 (ours) and 8 (foreign). -/
theorem C7_witness :
    w7.owner 5 = w7.ourPid ∧ w7.owner 8 ≠ w7.ourPid ∧
    (remember_if_external w7 none (some 9) = Except.error FocusError.noForegroundWindow ∧
     remember_if_external w7 (some 5) (some 9) = Except.ok (false, some 9) ∧
     remember_if_external w7 (some 8) (some 9) = Except.ok (true, some 8)) :=
  ⟨rfl, by decide, C7_remember_if_external w7 (some 9) 5 8 rfl (by decide)⟩

/-! Claim C8. -/

/-- Statement of C8 over a restore environment, a cleared state and an
operation sequence in which no `remember_*` call ever succeeds (the OS never
reports a foreground window): in all three empty-registry situations,
`restore` fails with `NoSavedWindow` and its OS-call trace is empty. -/
def C8Prop (env : RestoreEnv) (st : Option Nat) (w : ProcWorld)
    (ops : List (Option Nat × RegOp)) : Prop :=
  restore_previous_window env none = (Except.error FocusError.noSavedWindow, []) ∧
  restore_previous_window env (clear_saved_window st) =
    (Except.error FocusError.noSavedWindow, []) ∧
  ((∀ p ∈ ops, p.1 = none) →
    restore_previous_window env (runRegOps w ops none) =
      (Except.error FocusError.noSavedWindow, []))

/-- C8: whenever the stored state is empty — never-remembered, cleared, or
after a sequence in which every remember call failed — `restore` fails with
`NoSavedWindow` and performs no OS call. -/
theorem C8_restore_empty (env : RestoreEnv) (st : Option Nat) (w : ProcWorld)
    (ops : List (Option Nat × RegOp)) : C8Prop env st w ops := by
  refine ⟨rfl, rfl, fun hops => ?_⟩
  rw [runRegOps_all_none w ops hops]
  rfl

/-- Restore environment for the C8 witness. -/
def env8 : RestoreEnv := ⟨fun _ => true, true, 0, fun _ => some 5⟩

/-- World for the C8 witness. -/
def w8 : ProcWorld := ⟨fun h => h, 5⟩

/-- Failing-remember sequence for the C8 witness. -/
def ops8 : List (Option Nat × RegOp) :=
  [(none, RegOp.rememberCurrent), (none, RegOp.rememberIfExternal)]

/-- Witness for C8 at a concrete environment, state and sequence. -/
theorem C8_witness : C8Prop env8 (some 3) w8 ops8 :=
  C8_restore_empty env8 (some 3) w8 ops8

/-! Claim C9. -/

theorem restore_after_set_ok (env : RestoreEnv) (hwnd : Nat)
    (hvalid : env.isWindow hwnd = true) (hset : env.setForegroundOk = true) :
    restore_previous_window env (some hwnd) =
      ((verify_focus env.fgAt hwnd [0, 1, 2]).1,
       OsCall.isWindowCheck hwnd :: OsCall.setForeground hwnd ::
         (verify_focus env.fgAt hwnd [0, 1, 2]).2) := by
  have h3 : List.range 3 = [0, 1, 2] := rfl
  simp [restore_previous_window, hvalid, hset, h3]

/-- Statement of C9: once `SetForegroundWindow` reported success on a valid
handle, `restore` succeeds exactly when one of the three polls observes the
target as foreground, fails with `FocusNotVerified` exactly when none does,
stops at the first matching poll, and each poll is preceded by a fixed 10ms
delay (at most three sleep-poll pairs in the trace). -/
def C9Prop (env : RestoreEnv) (hwnd : Nat) : Prop :=
  ((restore_previous_window env (some hwnd)).1 = Except.ok () ↔
    ∃ i, i < 3 ∧ env.fgAt i = some hwnd) ∧
  ((restore_previous_window env (some hwnd)).1 =
      Except.error FocusError.focusNotVerified ↔
    ∀ i, i < 3 → env.fgAt i ≠ some hwnd) ∧
  (∀ i, i < 3 → env.fgAt i = some hwnd → (∀ j, j < i → env.fgAt j ≠ some hwnd) →
    (restore_previous_window env (some hwnd)).2 =
      OsCall.isWindowCheck hwnd :: OsCall.setForeground hwnd ::
        (List.replicate (i + 1) [OsCall.sleepMs 10, OsCall.getForeground]).flatten) ∧
  ((∀ i, i < 3 → env.fgAt i ≠ some hwnd) →
    (restore_previous_window env (some hwnd)).2 =
      OsCall.isWindowCheck hwnd :: OsCall.setForeground hwnd ::
        (List.replicate 3 [OsCall.sleepMs 10, OsCall.getForeground]).flatten)

/-- C9: after a successful set-foreground request, the bounded verification
loop polls the foreground window up to 3 times (within the spec's 3-5
range), each poll preceded by a fixed short delay, succeeds as soon as a
poll matches the target, and fails with `FocusNotVerified` exactly when all
polls are exhausted without a match. -/
theorem C9_verification_loop (env : RestoreEnv) (hwnd : Nat)
    (hvalid : env.isWindow hwnd = true) (hset : env.setForegroundOk = true) :
    C9Prop env hwnd := by
  rw [C9Prop, restore_after_set_ok env hwnd hvalid hset]
  by_cases h0 : env.fgAt 0 = some hwnd
  · refine ⟨?_, ?_, ?_, ?_⟩
    · exact iff_of_true (by simp [verify_focus, h0]) ⟨0, by omega, h0⟩
    · refine iff_of_false (by simp [verify_focus, h0]) (fun hall => hall 0 (by omega) h0)
    · intro i hi hfg hmin
      have hi0 : i = 0 := by
        by_contra hne
        exact hmin 0 (by omega) h0
      subst hi0
      simp [verify_focus, h0]
    · intro hall
      exact absurd h0 (hall 0 (by omega))
  · by_cases h1 : env.fgAt 1 = some hwnd
    · refine ⟨?_, ?_, ?_, ?_⟩
      · exact iff_of_true (by simp [verify_focus, h0, h1]) ⟨1, by omega, h1⟩
      · exact iff_of_false (by simp [verify_focus, h0, h1])
          (fun hall => hall 1 (by omega) h1)
      · intro i hi hfg hmin
        have hi1 : i = 1 := by
          interval_cases i
          · exact absurd hfg h0
          · rfl
          · exact absurd h1 (hmin 1 (by omega))
        subst hi1
        simp [verify_focus, h0, h1]
      · intro hall
        exact absurd h1 (hall 1 (by omega))
    · by_cases h2 : env.fgAt 2 = some hwnd
      · refine ⟨?_, ?_, ?_, ?_⟩
        · exact iff_of_true (by simp [verify_focus, h0, h1, h2]) ⟨2, by omega, h2⟩
        · exact iff_of_false (by simp [verify_focus, h0, h1, h2])
            (fun hall => hall 2 (by omega) h2)
        · intro i hi hfg hmin
          have hi2 : i = 2 := by
            interval_cases i
            · exact absurd hfg h0
            · exact absurd hfg h1
            · rfl
          subst hi2
          simp [verify_focus, h0, h1, h2]
        · intro hall
          exact absurd h2 (hall 2 (by omega))
      · refine ⟨?_, ?_, ?_, ?_⟩
        · refine iff_of_false (by simp [verify_focus, h0, h1, h2]) ?_
          rintro ⟨i, hi, hfg⟩
          interval_cases i
          · exact absurd hfg h0
          · exact absurd hfg h1
          · exact absurd hfg h2
        · refine iff_of_true (by simp [verify_focus, h0, h1, h2]) ?_
          intro i hi
          interval_cases i
          · exact h0
          · exact h1
          · exact h2
        · intro i hi hfg _
          interval_cases i
          · exact absurd hfg h0
          · exact absurd hfg h1
          · exact absurd hfg h2
        · intro _
          simp [verify_focus, h0, h1, h2]

/-- Restore environment for the C9 witness: every poll sees window 6. -/
def env9 : RestoreEnv := ⟨fun _ => true, true, 0, fun _ => some 6⟩

/-- Witness for C9 at a concrete environment and handle. -/
theorem C9_witness :
    env9.isWindow 6 = true ∧ env9.setForegroundOk = true ∧ C9Prop env9 6 :=
  ⟨rfl, rfl, C9_verification_loop env9 6 rfl rfl⟩

/-! Claim C2. -/

/-- Statement of C2: `simulate_paste` attempts all three strategies in order
regardless of earlier failures, fails with the all-strategies-failed error
exactly when all three strategies failed, succeeds exactly when at least one
succeeded, and overall success is monotonic in the strategy successes. -/
def C2Prop (env : InjectEnv) : Prop :=
  (simulate_paste env).2 =
    [PasteStrategy.sendInputAttach, PasteStrategy.sendMessageKeys,
     PasteStrategy.wmPaste] ∧
  ((simulate_paste env).1 =
      Except.error ("Paste simulation failed: all strategies failed") ↔
    strategyOk env.attachResult = false ∧ strategyOk env.messageKeysResult = false ∧
      strategyOk env.wmPasteResult = false) ∧
  ((simulate_paste env).1 = Except.ok () ↔
    (strategyOk env.attachResult = true ∨ strategyOk env.messageKeysResult = true ∨
      strategyOk env.wmPasteResult = true)) ∧
  (∀ env2 : InjectEnv,
    (strategyOk env.attachResult = true → strategyOk env2.attachResult = true) →
    (strategyOk env.messageKeysResult = true → strategyOk env2.messageKeysResult = true) →
    (strategyOk env.wmPasteResult = true → strategyOk env2.wmPasteResult = true) →
    (simulate_paste env).1 = Except.ok () → (simulate_paste env2).1 = Except.ok ())

/-- C2: `inject_paste` returns `AllInjectionStrategiesFailed` iff all three
strategies fail, reports success if at least one succeeds, attempts every
strategy unconditionally, and success is monotonic in strategy successes. -/
theorem C2_simulate_paste (env : InjectEnv) : C2Prop env := by
  have key : ∀ e : InjectEnv, (simulate_paste e).1 = Except.ok () ↔
      (strategyOk e.attachResult = true ∨ strategyOk e.messageKeysResult = true ∨
        strategyOk e.wmPasteResult = true) := by
    intro e
    cases ha : strategyOk e.attachResult <;>
      cases hm : strategyOk e.messageKeysResult <;>
        cases hw : strategyOk e.wmPasteResult <;>
          simp [simulate_paste, ha, hm, hw]
  refine ⟨?_, ?_, key env, ?_⟩
  · cases ha : strategyOk env.attachResult <;>
      cases hm : strategyOk env.messageKeysResult <;>
        cases hw : strategyOk env.wmPasteResult <;>
          simp [simulate_paste, ha, hm, hw]
  · cases ha : strategyOk env.attachResult <;>
      cases hm : strategyOk env.messageKeysResult <;>
        cases hw : strategyOk env.wmPasteResult <;>
          simp [simulate_paste, ha, hm, hw]
  · intro env2 m1 m2 m3 hok
    rw [key] at hok
    rw [key]
    rcases hok with h | h | h
    · exact Or.inl (m1 h)
    · exact Or.inr (Or.inl (m2 h))
    · exact Or.inr (Or.inr (m3 h))

/-- Injection environment for the C2 witness: only the second strategy
succeeds. -/
def inj2 : InjectEnv := ⟨Except.error ("send input blocked"), Except.ok (),
  Except.error ("no foreground window")⟩

/-- Witness for C2 at a concrete combination of strategy outcomes. -/
theorem C2_witness : C2Prop inj2 := C2_simulate_paste inj2

/-! Orchestrator helper lemmas. -/

theorem execute_write_error (env : OrchEnv) (text : String) (auto_paste : Bool)
    (e : String) (hw : env.writeResult = Except.error e) :
    execute env text auto_paste =
      (Except.ok
        { clipboard_success := false
          paste_attempted := false
          paste_likely_success := false
          message := ("Failed to copy to clipboard: ") ++ e },
       [OrchCall.clipboardWrite]) := by
  simp [execute, hw]

theorem execute_write_ok (env : OrchEnv) (text : String) (auto_paste : Bool)
    (hw : env.writeResult = Except.ok ()) :
    execute env text auto_paste =
      (Except.ok
        { clipboard_success := true
          paste_attempted := auto_paste
          paste_likely_success :=
            auto_paste && paste_result_ok env auto_paste && focus_restored env
          message :=
            if !auto_paste then ("Copied to clipboard")
            else if auto_paste && paste_result_ok env auto_paste && focus_restored env then
              ("Copied and pasted")
            else if auto_paste && !focus_restored env then
              ("Copied to clipboard - press Ctrl+V to paste")
            else ("Copied to clipboard - press Ctrl+V if not pasted") },
       [OrchCall.clipboardWrite, OrchCall.sleepMs 20, OrchCall.clipboardRead,
         OrchCall.restoreFocus] ++
        (if auto_paste then [OrchCall.sleepMs 100, OrchCall.injectPaste] else []) ++
        [OrchCall.clearSavedWindow]) := by
  simp [execute, hw]

theorem focus_restored_iff (env : OrchEnv) :
    focus_restored env = true ↔ env.focusResult = Except.ok (Except.ok ()) := by
  obtain ⟨wr, rr, fr, pr⟩ := env
  rcases fr with e | ie
  · simp [focus_restored]
  · rcases ie with e | u
    · simp [focus_restored]
    · cases u
      simp [focus_restored]

theorem paste_result_ok_iff (env : OrchEnv) :
    paste_result_ok env true = true ↔ env.pasteResult = Except.ok (Except.ok ()) := by
  obtain ⟨wr, rr, fr, pr⟩ := env
  rcases pr with e | ip
  · simp [paste_result_ok]
  · rcases ip with e | u
    · simp [paste_result_ok]
    · cases u
      simp [paste_result_ok]

/-! Claim C3. -/

/-- Statement of C3: `paste_likely_success` is true only if auto-paste was
requested and injection succeeded and focus restoration succeeded; if focus
restoration failed while auto-paste was on (and the clipboard write went
through), the outcome reports failure and the manual-paste summary
regardless of the injector's outcome; and `paste_attempted = false` forces
`paste_likely_success = false`. -/
def C3Prop (env : OrchEnv) (auto_paste : Bool) (r : CopyPasteResult) : Prop :=
  (r.paste_likely_success = true →
    auto_paste = true ∧ env.pasteResult = Except.ok (Except.ok ()) ∧
      env.focusResult = Except.ok (Except.ok ())) ∧
  (auto_paste = true → env.writeResult = Except.ok () →
    env.focusResult ≠ Except.ok (Except.ok ()) →
    r.paste_likely_success = false ∧
      r.message = ("Copied to clipboard - press Ctrl+V to paste")) ∧
  (r.paste_attempted = false → r.paste_likely_success = false)

/-- C3: conservative success classification of the orchestrator's outcome. -/
theorem C3_paste_likely (env : OrchEnv) (text : String) (auto_paste : Bool)
    (r : CopyPasteResult) (hr : (execute env text auto_paste).1 = Except.ok r) :
    C3Prop env auto_paste r := by
  simp only [C3Prop]
  rcases hwr : env.writeResult with e | u
  · rw [execute_write_error env text auto_paste e hwr] at hr
    simp only [Except.ok.injEq] at hr
    subst hr
    refine ⟨?_, ?_, ?_⟩
    · intro h
      simp at h
    · intro _ hok _
      cases hok
    · intro _
      rfl
  · cases u
    rw [execute_write_ok env text auto_paste hwr] at hr
    simp only [Except.ok.injEq] at hr
    subst hr
    refine ⟨?_, ?_, ?_⟩
    · intro h
      simp only [Bool.and_eq_true] at h
      obtain ⟨⟨hap, hpok⟩, hfok⟩ := h
      subst hap
      exact ⟨rfl, (paste_result_ok_iff env).mp hpok, (focus_restored_iff env).mp hfok⟩
    · intro hap _ hnf
      subst hap
      have hfr : focus_restored env = false := by
        cases hfr2 : focus_restored env
        · rfl
        · exact absurd ((focus_restored_iff env).mp hfr2) hnf
      constructor
      · simp [hfr]
      · simp [hfr]
    · intro h
      simp only at h
      rw [h]
      simp

/-- Orchestrator environment for the C3 witness: clipboard fine, focus
restoration fails, injection succeeds. -/
def env3 : OrchEnv :=
  ⟨Except.ok (), Except.ok ("hello"), Except.ok (Except.error ("focus lost")),
   Except.ok (Except.ok ())⟩

/-- Text used by the orchestrator witnesses. -/
def t3 : String := "hello"

/-- Outcome the orchestrator produces in the C3 witness scenario. -/
def r3 : CopyPasteResult :=
  ⟨true, true, false, ("Copied to clipboard - press Ctrl+V to paste")⟩

/-- Witness for C3: focus-restore failure with auto-paste on yields a
non-success outcome with the manual-paste summary. -/
theorem C3_witness :
    (execute env3 t3 true).1 = Except.ok r3 ∧ C3Prop env3 true r3 :=
  ⟨rfl, C3_paste_likely env3 t3 true r3 rfl⟩

/-! Claim C4. -/

/-- Statement of C4: for every combination of collaborator results the
orchestrator returns an outcome value (never a raised error), and that
outcome reports outright operation failure — `clipboard_success = false` —
exactly when the clipboard write failed. -/
def C4Prop (env : OrchEnv) (text : String) (auto_paste : Bool) : Prop :=
  ∃ r : CopyPasteResult, (execute env text auto_paste).1 = Except.ok r ∧
    (r.clipboard_success = false ↔ ∃ e, env.writeResult = Except.error e)

/-- C4: clipboard-write errors are the only ones surfaced as outright
operation failure; all other collaborator errors are folded into the
outcome's flags and message, so an outcome is always produced. -/
theorem C4_always_outcome (env : OrchEnv) (text : String) (auto_paste : Bool) :
    C4Prop env text auto_paste := by
  simp only [C4Prop]
  rcases hwr : env.writeResult with e | u
  · have hx := execute_write_error env text auto_paste e hwr
    exact ⟨_, congrArg Prod.fst hx, iff_of_true rfl ⟨e, rfl⟩⟩
  · cases u
    have hx := execute_write_ok env text auto_paste hwr
    refine ⟨_, congrArg Prod.fst hx, iff_of_false (by simp) ?_⟩
    rintro ⟨e2, he⟩
    cases he

/-- Orchestrator environment for the C4 witness: every collaborator other
than the clipboard write fails. -/
def env4 : OrchEnv :=
  ⟨Except.ok (), Except.error ("read failed"), Except.error ("join failed"),
   Except.ok (Except.error ("all strategies failed"))⟩

/-- Text used by the C4 witness. -/
def t4 : String := "sample"

/-- Witness for C4 at a concrete environment. -/
theorem C4_witness : C4Prop env4 t4 true := C4_always_outcome env4 t4 true

/-! Claim C5. -/

/-- Statement of C5: a failed clipboard write short-circuits to the
all-false outcome with the failure summary, and the trace shows the
orchestrator invoked neither the focus restorer nor the paste injector. -/
def C5Prop (env : OrchEnv) (text : String) (auto_paste : Bool) (e : String) : Prop :=
  execute env text auto_paste =
    (Except.ok
      { clipboard_success := false
        paste_attempted := false
        paste_likely_success := false
        message := ("Failed to copy to clipboard: ") ++ e },
     [OrchCall.clipboardWrite]) ∧
  OrchCall.restoreFocus ∉ (execute env text auto_paste).2 ∧
  OrchCall.injectPaste ∉ (execute env text auto_paste).2

/-- C5: the clipboard write is the only fatal step; when it fails nothing
else runs and the outcome is the failure report. -/
theorem C5_write_fail_short_circuit (env : OrchEnv) (text : String)
    (auto_paste : Bool) (e : String) (hw : env.writeResult = Except.error e) :
    C5Prop env text auto_paste e := by
  have hx := execute_write_error env text auto_paste e hw
  refine ⟨hx, ?_, ?_⟩ <;> rw [hx] <;> simp

/-- Error message for the C5 witness. -/
def m5 : String := "clipboard locked"

/-- Orchestrator environment for the C5 witness: clipboard write fails. -/
def env5 : OrchEnv :=
  ⟨Except.error (m5), Except.ok ("x"), Except.ok (Except.ok ()),
   Except.ok (Except.ok ())⟩

/-- Text used by the C5 witness. -/
def t5 : String := "payload"

/-- Witness for C5 at a concrete environment. -/
theorem C5_witness : env5.writeResult = Except.error m5 ∧ C5Prop env5 t5 true m5 :=
  ⟨rfl, C5_write_fail_short_circuit env5 t5 true m5 rfl⟩

/-! Claim C6. -/

/-- Statement of C6: with `auto_paste = false` the injector is never invoked,
and a successful clipboard write yields the clipboard-only outcome. -/
def C6Prop (env : OrchEnv) (text : String) : Prop :=
  OrchCall.injectPaste ∉ (execute env text false).2 ∧
  (env.writeResult = Except.ok () →
    (execute env text false).1 =
      Except.ok
        { clipboard_success := true
          paste_attempted := false
          paste_likely_success := false
          message := ("Copied to clipboard") })

/-- C6: `paste_prompt(text, false)` never invokes the paste injector and, on
a successful clipboard write, returns
`{true, false, false, "Copied to clipboard"}`. -/
theorem C6_no_autopaste (env : OrchEnv) (text : String) : C6Prop env text := by
  constructor
  · rcases hwr : env.writeResult with e | u
    · rw [execute_write_error env text false e hwr]
      simp
    · cases u
      rw [execute_write_ok env text false hwr]
      simp
  · intro hwok
    rw [execute_write_ok env text false hwok]
    simp

/-- Orchestrator environment for the C6 witness. -/
def env6 : OrchEnv :=
  ⟨Except.ok (), Except.ok ("note"), Except.ok (Except.ok ()),
   Except.ok (Except.ok ())⟩

/-- Text used by the C6 witness. -/
def t6 : String := "note"

/-- Witness for C6 at a concrete environment. -/
theorem C6_witness : C6Prop env6 t6 := C6_no_autopaste env6 t6

/-! Claim C10. -/

/-- Statement of C10: when the clipboard write succeeds, the last
collaborator call is `clear_saved_window`, so the registry's stored handle
is empty after the run whatever the focus-restore and injection outcomes;
when the write fails, the trace contains no registry operation and the
stored handle is untouched. -/
def C10Prop (env : OrchEnv) (text : String) (auto_paste : Bool) : Prop :=
  (env.writeResult = Except.ok () →
    (execute env text auto_paste).2.getLast? = some OrchCall.clearSavedWindow ∧
    ∀ st : Option Nat, applyRegistryCalls (execute env text auto_paste).2 st = none) ∧
  (∀ e, env.writeResult = Except.error e →
    OrchCall.clearSavedWindow ∉ (execute env text auto_paste).2 ∧
    OrchCall.restoreFocus ∉ (execute env text auto_paste).2 ∧
    ∀ st : Option Nat, applyRegistryCalls (execute env text auto_paste).2 st = st)

/-- C10: after a successful clipboard write the orchestrator always clears
the saved window before returning; after a failed write it touches no
registry state. -/
theorem C10_registry_cleanup (env : OrchEnv) (text : String) (auto_paste : Bool) :
    C10Prop env text auto_paste := by
  constructor
  · intro hwok
    rw [execute_write_ok env text auto_paste hwok]
    cases auto_paste <;> exact ⟨rfl, fun st => rfl⟩
  · intro e hw
    rw [execute_write_error env text auto_paste e hw]
    exact ⟨by simp, by simp, fun st => rfl⟩

/-- Orchestrator environment for the C10 witness: write succeeds, the rest
fails. -/
def env10 : OrchEnv :=
  ⟨Except.ok (), Except.error ("read failed"), Except.ok (Except.error ("focus")),
   Except.ok (Except.error ("inject"))⟩

/-- Text used by the C10 witness. -/
def t10 : String := "cleanup"

/-- Witness for C10 at a concrete environment. -/
theorem C10_witness : C10Prop env10 t10 true := C10_registry_cleanup env10 t10 true

end Prompter
